import Mathlib

/-!
# Animated four-square logo: timeline, easing and transforms

A shallow embedding of `src/logo.cpp`.

* The arithmetic of the program is `float`; it is embedded over exact numbers.  Every definition
  that only adds, multiplies, divides and compares is written once for an arbitrary linearly
  ordered field `α` (so it runs on `ℚ` and is also available on `ℝ`).
* `cos` of `<math.h>` and the `glm` matrix helpers (`glm::radians`, `glm::translate`,
  `glm::rotate`, `glm::scale`) are library code; they are embedded over `ℝ` with the real cosine
  and sine.
* The mutable locals of `main` become fields of explicit state records that each frame maps to
  their next value.
-/

namespace Logo

/-! ## Easing functions and the interpolator (lines 603-649) -/

section Easing

variable {α : Type} [LinearOrderedField α]

/-- The function `easeInOutQuart`:
`val < 0.5 ? 8 * val * val * val * val : 1 - pow(-2 * val + 2, 4) / 2`. -/
def easeInOutQuart (val : α) : α :=
  if val < 0.5 then 8 * val * val * val * val else 1 - (-2 * val + 2) ^ 4 / 2

/-- The function `easeOutBounce`.  In the three later bands the source writes
`n1 * (val -= c) * val + k`: `val` is first lowered by `c` and the lowered value is then
squared (left-to-right evaluation, as in the formula `n1*(t-c)² + k`). -/
def easeOutBounce (val : α) : α :=
  let n1 : α := 7.5625
  let d1 : α := 2.75
  if val < 1 / d1 then
    n1 * val * val
  else if val < 2 / d1 then
    let val := val - 1.5 / d1
    n1 * val * val + 0.75
  else if val < 2.5 / d1 then
    let val := val - 2.25 / d1
    n1 * val * val + 0.9375
  else
    let val := val - 2.625 / d1
    n1 * val * val + 0.9843

/-- The function `getInterpolatedVal`:
`initialVal + easing(timeOffset / duration) * (finalVal - initialVal)`. -/
def getInterpolatedVal (duration timeOffset initialVal finalVal : α) (easing : α → α) : α :=
  initialVal + easing (timeOffset / duration) * (finalVal - initialVal)

end Easing

section Timeline

variable {α : Type} [LinearOrderedField α] {σ : Type}

/-- What the eight consecutive `if` blocks of a playing frame leave behind: the scene after the
blocks that ran, the pairs `(t1, t2)` the frame computed (in order, one per block), and the value
of `t2` after the last block, which the reset test of line 519 reads. -/
structure PhaseRun (α σ : Type) where
  scene : σ
  bounds : List (α × α)
  t2 : α

/-- The eight phase blocks of lines 303-517.  `phase k t1 t2 elapsedTime` is the body of the
`k`-th block; a block runs when `elapsedTime <= t2 && elapsedTime >= t1`.  The locals `t1`, `t2`
are updated between the blocks exactly as in the source (`t1 = t2; t2 += d`). -/
def runPhases (phase : ℕ → α → α → α → σ → σ) (elapsedTime : α) (s : σ) : PhaseRun α σ :=
  let t1 : α := 0
  let t2 : α := 0.8
  let b1 := (t1, t2)
  let s := if elapsedTime ≤ t2 ∧ elapsedTime ≥ t1 then phase 1 t1 t2 elapsedTime s else s
  let t1 := t2
  let t2 := t2 + 0.75
  let b2 := (t1, t2)
  let s := if elapsedTime ≤ t2 ∧ elapsedTime ≥ t1 then phase 2 t1 t2 elapsedTime s else s
  let t1 := t2
  let t2 := t2 + 0.75
  let b3 := (t1, t2)
  let s := if elapsedTime ≤ t2 ∧ elapsedTime ≥ t1 then phase 3 t1 t2 elapsedTime s else s
  let t1 := t2
  let t2 := t2 + 0.75
  let b4 := (t1, t2)
  let s := if elapsedTime ≤ t2 ∧ elapsedTime ≥ t1 then phase 4 t1 t2 elapsedTime s else s
  let t1 := t2
  let t2 := t2 + 0.8
  let b5 := (t1, t2)
  let s := if elapsedTime ≤ t2 ∧ elapsedTime ≥ t1 then phase 5 t1 t2 elapsedTime s else s
  let t1 := t2
  let t2 := t2 + 0.75
  let b6 := (t1, t2)
  let s := if elapsedTime ≤ t2 ∧ elapsedTime ≥ t1 then phase 6 t1 t2 elapsedTime s else s
  let t1 := t2
  let t2 := t2 + 0.75
  let b7 := (t1, t2)
  let s := if elapsedTime ≤ t2 ∧ elapsedTime ≥ t1 then phase 7 t1 t2 elapsedTime s else s
  let t1 := t2
  let t2 := t2 + 0.75
  let b8 := (t1, t2)
  let s := if elapsedTime ≤ t2 ∧ elapsedTime ≥ t1 then phase 8 t1 t2 elapsedTime s else s
  { scene := s, bounds := [b1, b2, b3, b4, b5, b6, b7, b8], t2 := t2 }

/-- The pairs `(t1, t2)` of the eight phases, as a playing frame computes them.  They do not
depend on the elapsed time or on the scene, so the frame is run on a trivial scene. -/
def phaseBounds : List (α × α) :=
  (runPhases (fun _ _ _ _ u => u) (0 : α) ()).bounds

/-- The durations `t2 - t1` of the eight phases. -/
def phaseDurations : List (α × α) → List α :=
  List.map (fun b => b.2 - b.1)

/-- The length of one cycle: the sum of the eight phase durations. -/
def cycleDuration : α :=
  (phaseDurations (phaseBounds : List (α × α))).sum

/-- The value of `t2` after the last phase block, the threshold of the reset test. -/
def finalT2 : α :=
  (runPhases (fun _ _ _ _ u => u) (0 : α) ()).t2

/-- The numbers of the phase blocks that run in a playing frame with the given elapsed time, in
the order in which they run: the frame is run with blocks that only log their number. -/
def activePhases (elapsedTime : α) : List ℕ :=
  (runPhases (fun k _ _ _ log => log ++ [k]) elapsedTime []).scene

end Timeline

/-! ## The loop state and one iteration of the render loop (lines 270-542) -/

section Loop

variable {α : Type} [LinearOrderedField α] {σ : Type}

/-- The mutable state of the render loop: the global `isPaused`, the clock locals of lines
270-274, the scene (the four boxes), the GLFW timer read by `glfwGetTime` and written by
`glfwSetTime`, and the window's close flag. -/
structure LoopState (α σ : Type) where
  isPaused : Bool
  startTime : α
  currTime : α
  prevTime : α
  elapsedTime : α
  dt : α
  scene : σ
  glfwTime : α
  shouldClose : Bool

/-- The state on entry to the loop: lines 17 and 270-274, with the timer at `now`. -/
def LoopState.init (scene : σ) (now : α) : LoopState α σ :=
  { isPaused := false, startTime := -1, currTime := -1, prevTime := 0, elapsedTime := 0,
    dt := 0, scene := scene, glfwTime := now, shouldClose := false }

/-- The keys `processInput` polls. -/
structure Keys where
  escape : Bool
  space : Bool
  enter : Bool

/-- The function `pauseAnimation`. -/
def pauseAnimation (_isPaused : Bool) : Bool := true

/-- The function `playAnimation`. -/
def playAnimation (_isPaused : Bool) : Bool := false

/-- The function `toggleAnimation`. -/
def toggleAnimation (isPaused : Bool) : Bool :=
  if isPaused = true then false else true

/-- The function `processInput`: escape asks the window to close, space pauses, and enter
(tested after space) plays. -/
def processInput (keys : Keys) (st : LoopState α σ) : LoopState α σ :=
  let st := if keys.escape then { st with shouldClose := true } else st
  let st := if keys.space then { st with isPaused := pauseAnimation st.isPaused } else st
  if keys.enter then { st with isPaused := playAnimation st.isPaused } else st

/-- The branch `isPaused == false` of the loop body (lines 282-524). -/
def playingFrame (phase : ℕ → α → α → α → σ → σ) (st : LoopState α σ) : LoopState α σ :=
  let timestamp := st.glfwTime
  let startTime := if st.currTime < 0 then timestamp else st.startTime
  let currTime := timestamp
  let elapsedTime := currTime - startTime
  let dt := elapsedTime - st.prevTime
  let run := runPhases phase elapsedTime st.scene
  let currTime := if elapsedTime > run.t2 then -1 else currTime
  let prevTime := elapsedTime
  { st with startTime := startTime, currTime := currTime, prevTime := prevTime,
            elapsedTime := elapsedTime, dt := dt, scene := run.scene }

/-- The branch `isPaused == true` of the loop body (lines 528-537): the timer is set to
`elapsedTime + startTime`, and the boxes are drawn again with the transforms they hold. -/
def pausedFrame (st : LoopState α σ) : LoopState α σ :=
  { st with glfwTime := st.elapsedTime + st.startTime }

/-- One iteration of the `while` loop (lines 278-541). -/
def loopBody (phase : ℕ → α → α → α → σ → σ) (keys : Keys) (st : LoopState α σ) :
    LoopState α σ :=
  let st := processInput keys st
  if st.isPaused = false then playingFrame phase st else pausedFrame st

/-- Real time passing between two reads of the GLFW timer. -/
def elapse (d : α) (st : LoopState α σ) : LoopState α σ :=
  { st with glfwTime := st.glfwTime + d }

/-- A run of paused frames; before each of them the timer has advanced by the next entry of
`delays`. -/
def pausedFrames (delays : List α) (st : LoopState α σ) : LoopState α σ :=
  delays.foldl (fun st d => pausedFrame (elapse d st)) st

end Loop

/-! ## The `glm` helpers the program calls -/

/-- A 4x4 matrix, `glm::mat4`; the entry in row `i` and column `j` is `m i j`. -/
abbrev Mat4 : Type := Matrix (Fin 4) (Fin 4) ℝ

namespace glm

/-- The helper `glm::radians`: degrees to radians. -/
noncomputable def radians (degrees : ℝ) : ℝ := degrees * (Real.pi / 180)

/-- The helper `glm::translate(m, vec3(x, y, z))`: `m` times the translation by `(x, y, z)`. -/
def translate (m : Mat4) (x y z : ℝ) : Mat4 :=
  m * !![1, 0, 0, x; 0, 1, 0, y; 0, 0, 1, z; 0, 0, 0, 1]

/-- The helper `glm::rotate(m, angle, vec3(0, 0, 1))`: `m` times the rotation by `angle`
radians about the z axis, the only axis the program passes. -/
noncomputable def rotate (m : Mat4) (angle : ℝ) : Mat4 :=
  m * !![Real.cos angle, -Real.sin angle, 0, 0;
         Real.sin angle, Real.cos angle, 0, 0;
         0, 0, 1, 0;
         0, 0, 0, 1]

/-- The helper `glm::scale(m, vec3(k))`: `m` times the uniform scaling by `k`. -/
def scale (m : Mat4) (k : ℝ) : Mat4 :=
  m * !![k, 0, 0, 0; 0, k, 0, 0; 0, 0, k, 0; 0, 0, 0, 1]

end glm

/-! ## The class `Box` (lines 33-190) -/

/-- The numeric members of a `Box`.  The vertex and index arrays and the GPU buffer handles are
written once by the constructor and never read by the animation; they are left out.  The
transform a box uploads with `setWorldTransform` is its field `transform`. -/
structure Box where
  x : ℝ
  y : ℝ
  w : ℝ
  h : ℝ
  angle : ℝ
  scale : ℝ
  transform : Mat4

namespace Box

/-- The method `resetTransform`. -/
def resetTransform (b : Box) : Box := { b with transform := 1 }

/-- The constructor `Box(w, h)`. -/
def new (w h : ℝ) : Box :=
  resetTransform { x := 0, y := 0, w := w, h := h, angle := 0, scale := 1, transform := 0 }

/-- The method `getTransform`. -/
def getTransform (b : Box) : Mat4 := b.transform

/-- The method `setTransform`. -/
def setTransform (b : Box) (transform : Mat4) : Box := { b with transform := transform }

/-- The method `setAngle`. -/
def setAngle (b : Box) (angle : ℝ) : Box := { b with angle := angle }

/-- The method `setScale`. -/
def setScale (b : Box) (scale : ℝ) : Box := { b with scale := scale }

/-- The method `setPosition`. -/
def setPosition (b : Box) (x y : ℝ) : Box := { b with x := x, y := y }

/-- The method `updateTransform`: reset, then translate, rotate, scale. -/
noncomputable def updateTransform (b : Box) : Box :=
  let b := b.resetTransform
  let b := b.setTransform (glm.translate b.transform b.x b.y 0)
  let b := b.setTransform (glm.rotate b.transform (glm.radians b.angle))
  let b := b.setTransform (glm.scale b.transform b.scale)
  b

/-- The method `updateOffsetRotation`: reset, then rotate, translate, scale. -/
noncomputable def updateOffsetRotation (b : Box) : Box :=
  let b := b.resetTransform
  let b := b.setTransform (glm.rotate b.transform (glm.radians b.angle))
  let b := b.setTransform (glm.translate b.transform b.x b.y 0)
  let b := b.setTransform (glm.scale b.transform b.scale)
  b

/-- The image of the box's local origin `(0, 0, 0, 1)` under its transform, as the vertex
shader computes it (`transform * vec4(aPos, 1.0f)`): its first two coordinates. -/
def centre (b : Box) : ℝ × ℝ :=
  let v := Matrix.mulVec b.transform ![0, 0, 0, 1]
  (v 0, v 1)

end Box

/-! ## The scene and the bodies of the eight phase blocks -/

/-- The four boxes `box1` ... `box4` of `main`. -/
structure Scene where
  box1 : Box
  box2 : Box
  box3 : Box
  box4 : Box

/-- The box with the given index, `0` for `box1` up to `3` for `box4`. -/
def Scene.box (s : Scene) (i : Fin 4) : Box :=
  match i with
  | 0 => s.box1
  | 1 => s.box2
  | 2 => s.box3
  | 3 => s.box4

/-- The local `box_size` of `main`. -/
def box_size : ℝ := 0.2

/-- The local `gap` of `main`. -/
def gap : ℝ := 0.01

/-- The local `posOffset` of `main` (line 237). -/
noncomputable def posOffset : ℝ := gap + box_size / 2

/-- The scene on entry to the loop (lines 239-242). -/
def Scene.init : Scene :=
  { box1 := Box.new box_size box_size, box2 := Box.new box_size box_size,
    box3 := Box.new box_size box_size, box4 := Box.new box_size box_size }

/-- The body of phase block 1 (lines 307-329). -/
noncomputable def phase1 (posOffset t1 t2 elapsedTime : ℝ) (s : Scene) : Scene :=
  let box1 := s.box1.setPosition (-posOffset) posOffset
  let box2 := s.box2.setPosition posOffset posOffset
  let box3 := s.box3.setPosition posOffset (-posOffset)
  let box4 := s.box4.setPosition (-posOffset) (-posOffset)
  let val1 := getInterpolatedVal (t2 - t1 - 0.075) (elapsedTime - t1) 1.0 0.5 easeOutBounce
  let val2 := getInterpolatedVal (t2 - t1) (elapsedTime - t1) 1.0 0.5 easeOutBounce
  let val3 := getInterpolatedVal (t2 - t1 - 0.05) (elapsedTime - t1) 1.0 0.5 easeOutBounce
  let val4 := getInterpolatedVal (t2 - t1 - 0.025) (elapsedTime - t1) 1.0 0.5 easeOutBounce
  let box1 := box1.setScale val1
  let box2 := box2.setScale val2
  let box3 := box3.setScale val3
  let box4 := box4.setScale val4
  let box1 := box1.updateTransform
  let box2 := box2.updateTransform
  let box3 := box3.updateTransform
  let box4 := box4.updateTransform
  { box1 := box1, box2 := box2, box3 := box3, box4 := box4 }

/-- The body of phase block 2 (lines 336-350). -/
noncomputable def phase2 (_posOffset t1 t2 elapsedTime : ℝ) (s : Scene) : Scene :=
  let box1 := s.box1
  let box2 := s.box2
  let box3 := s.box3
  let box4 := s.box4
  let val1 := getInterpolatedVal (t2 - t1) (elapsedTime - t1) 0.0 (-90.0) easeInOutQuart
  let box1 := box1.setAngle val1
  let box2 := box2.setAngle val1
  let box3 := box3.setAngle val1
  let box4 := box4.setAngle val1
  let box1 := box1.updateOffsetRotation
  let box2 := box2.updateOffsetRotation
  let box3 := box3.updateOffsetRotation
  let box4 := box4.updateOffsetRotation
  { box1 := box1, box2 := box2, box3 := box3, box4 := box4 }

/-- The body of phase block 3 (lines 357-382). -/
noncomputable def phase3 (posOffset t1 t2 elapsedTime : ℝ) (s : Scene) : Scene :=
  let box1 := s.box1.setPosition posOffset posOffset
  let box2 := s.box2.setPosition posOffset (-posOffset)
  let box3 := s.box3.setPosition (-posOffset) (-posOffset)
  let box4 := s.box4.setPosition (-posOffset) posOffset
  let val1 := getInterpolatedVal (t2 - t1) (elapsedTime - t1) 0.5 1.0 easeInOutQuart
  let val2 := getInterpolatedVal (t2 - t1) (elapsedTime - t1) (-90.0) (-180.0) easeInOutQuart
  let box1 := box1.setScale val1
  let box2 := box2.setScale val1
  let box3 := box3.setScale val1
  let box4 := box4.setScale val1
  let box1 := box1.setAngle val2
  let box2 := box2.setAngle val2
  let box3 := box3.setAngle val2
  let box4 := box4.setAngle val2
  let box1 := box1.updateTransform
  let box2 := box2.updateTransform
  let box3 := box3.updateTransform
  let box4 := box4.updateTransform
  { box1 := box1, box2 := box2, box3 := box3, box4 := box4 }

/-- The body of phase block 4 (lines 389-408). -/
noncomputable def phase4 (posOffset t1 t2 elapsedTime : ℝ) (s : Scene) : Scene :=
  let box1 := s.box1.setPosition (-posOffset) (-posOffset)
  let box2 := s.box2.setPosition (-posOffset) posOffset
  let box3 := s.box3.setPosition posOffset posOffset
  let box4 := s.box4.setPosition posOffset (-posOffset)
  let val := getInterpolatedVal (t2 - t1) (elapsedTime - t1) 180.0 90.0 easeInOutQuart
  let box1 := box1.setAngle val
  let box2 := box2.setAngle val
  let box3 := box3.setAngle val
  let box4 := box4.setAngle val
  let box1 := box1.updateOffsetRotation
  let box2 := box2.updateOffsetRotation
  let box3 := box3.updateOffsetRotation
  let box4 := box4.updateOffsetRotation
  { box1 := box1, box2 := box2, box3 := box3, box4 := box4 }

/-- The body of phase block 5 (lines 415-437). -/
noncomputable def phase5 (posOffset t1 t2 elapsedTime : ℝ) (s : Scene) : Scene :=
  let box1 := s.box1.setPosition posOffset (-posOffset)
  let box2 := s.box2.setPosition (-posOffset) (-posOffset)
  let box3 := s.box3.setPosition (-posOffset) posOffset
  let box4 := s.box4.setPosition posOffset posOffset
  let val1 := getInterpolatedVal (t2 - t1 - 0.025) (elapsedTime - t1) 1.0 0.5 easeOutBounce
  let val2 := getInterpolatedVal (t2 - t1 - 0.05) (elapsedTime - t1) 1.0 0.5 easeOutBounce
  let val3 := getInterpolatedVal (t2 - t1) (elapsedTime - t1) 1.0 0.5 easeOutBounce
  let val4 := getInterpolatedVal (t2 - t1 - 0.075) (elapsedTime - t1) 1.0 0.5 easeOutBounce
  let box1 := box1.setScale val1
  let box2 := box2.setScale val2
  let box3 := box3.setScale val3
  let box4 := box4.setScale val4
  let box1 := box1.updateTransform
  let box2 := box2.updateTransform
  let box3 := box3.updateTransform
  let box4 := box4.updateTransform
  { box1 := box1, box2 := box2, box3 := box3, box4 := box4 }

/-- The body of phase block 6 (lines 444-458). -/
noncomputable def phase6 (_posOffset t1 t2 elapsedTime : ℝ) (s : Scene) : Scene :=
  let box1 := s.box1
  let box2 := s.box2
  let box3 := s.box3
  let box4 := s.box4
  let val := getInterpolatedVal (t2 - t1) (elapsedTime - t1) 0.0 (-90.0) easeInOutQuart
  let box1 := box1.setAngle val
  let box2 := box2.setAngle val
  let box3 := box3.setAngle val
  let box4 := box4.setAngle val
  let box1 := box1.updateOffsetRotation
  let box2 := box2.updateOffsetRotation
  let box3 := box3.updateOffsetRotation
  let box4 := box4.updateOffsetRotation
  { box1 := box1, box2 := box2, box3 := box3, box4 := box4 }

/-- The body of phase block 7 (lines 465-490). -/
noncomputable def phase7 (posOffset t1 t2 elapsedTime : ℝ) (s : Scene) : Scene :=
  let box1 := s.box1.setPosition (-posOffset) (-posOffset)
  let box2 := s.box2.setPosition (-posOffset) posOffset
  let box3 := s.box3.setPosition posOffset posOffset
  let box4 := s.box4.setPosition posOffset (-posOffset)
  let val1 := getInterpolatedVal (t2 - t1) (elapsedTime - t1) 0.5 1.0 easeInOutQuart
  let val2 := getInterpolatedVal (t2 - t1) (elapsedTime - t1) (-90.0) (-180.0) easeInOutQuart
  let box1 := box1.setScale val1
  let box2 := box2.setScale val1
  let box3 := box3.setScale val1
  let box4 := box4.setScale val1
  let box1 := box1.setAngle val2
  let box2 := box2.setAngle val2
  let box3 := box3.setAngle val2
  let box4 := box4.setAngle val2
  let box1 := box1.updateTransform
  let box2 := box2.updateTransform
  let box3 := box3.updateTransform
  let box4 := box4.updateTransform
  { box1 := box1, box2 := box2, box3 := box3, box4 := box4 }

/-- The body of phase block 8 (lines 497-516). -/
noncomputable def phase8 (posOffset t1 t2 elapsedTime : ℝ) (s : Scene) : Scene :=
  let box1 := s.box1.setPosition posOffset posOffset
  let box2 := s.box2.setPosition posOffset (-posOffset)
  let box3 := s.box3.setPosition (-posOffset) (-posOffset)
  let box4 := s.box4.setPosition (-posOffset) posOffset
  let val := getInterpolatedVal (t2 - t1) (elapsedTime - t1) 180.0 90.0 easeInOutQuart
  let box1 := box1.setAngle val
  let box2 := box2.setAngle val
  let box3 := box3.setAngle val
  let box4 := box4.setAngle val
  let box1 := box1.updateOffsetRotation
  let box2 := box2.updateOffsetRotation
  let box3 := box3.updateOffsetRotation
  let box4 := box4.updateOffsetRotation
  { box1 := box1, box2 := box2, box3 := box3, box4 := box4 }

/-- The body of the `k`-th phase block of `main`, for `runPhases`. -/
noncomputable def scenePhase (posOffset : ℝ) (k : ℕ) (t1 t2 elapsedTime : ℝ) (s : Scene) :
    Scene :=
  match k with
  | 1 => phase1 posOffset t1 t2 elapsedTime s
  | 2 => phase2 posOffset t1 t2 elapsedTime s
  | 3 => phase3 posOffset t1 t2 elapsedTime s
  | 4 => phase4 posOffset t1 t2 elapsedTime s
  | 5 => phase5 posOffset t1 t2 elapsedTime s
  | 6 => phase6 posOffset t1 t2 elapsedTime s
  | 7 => phase7 posOffset t1 t2 elapsedTime s
  | 8 => phase8 posOffset t1 t2 elapsedTime s
  | _ => s

/-- One iteration of the render loop of `main`. -/
noncomputable def mainLoopBody (keys : Keys) (st : LoopState ℝ Scene) : LoopState ℝ Scene :=
  loopBody (scenePhase posOffset) keys st

/-! ## The three elementary matrices, for stating the transform orders -/

/-- The translation by `(x, y)` in the plane, as a 4x4 matrix. -/
def translationMatrix (x y : ℝ) : Mat4 :=
  !![1, 0, 0, x; 0, 1, 0, y; 0, 0, 1, 0; 0, 0, 0, 1]

/-- The rotation by `a` degrees about the z axis, as a 4x4 matrix. -/
noncomputable def rotationZMatrix (a : ℝ) : Mat4 :=
  !![Real.cos (a * (Real.pi / 180)), -Real.sin (a * (Real.pi / 180)), 0, 0;
     Real.sin (a * (Real.pi / 180)), Real.cos (a * (Real.pi / 180)), 0, 0;
     0, 0, 1, 0;
     0, 0, 0, 1]

/-- The uniform scaling by `s`, as a 4x4 matrix. -/
def scalingMatrix (s : ℝ) : Mat4 :=
  !![s, 0, 0, 0; 0, s, 0, 0; 0, 0, s, 0; 0, 0, 0, 1]

/-- The point `(x, y)` turned by `a` degrees about the world origin. -/
noncomputable def rotateAboutOrigin (a x y : ℝ) : ℝ × ℝ :=
  (Real.cos (a * (Real.pi / 180)) * x - Real.sin (a * (Real.pi / 180)) * y,
   Real.sin (a * (Real.pi / 180)) * x + Real.cos (a * (Real.pi / 180)) * y)

/-! ## Sample states for evaluating the loop -/

/-- Phase bodies that only log their number: the scene is the list of the blocks that ran. -/
def logPhase : ℕ → ℚ → ℚ → ℚ → List ℕ → List ℕ :=
  fun k _ _ _ log => log ++ [k]

/-- A state at the end of a cycle: the cycle started at timer value 10, the previous frame
saw the elapsed time 6.05, and the timer now reads 16.15. -/
def lateFrame : LoopState ℚ (List ℕ) :=
  { isPaused := false, startTime := 10, currTime := 16.05, prevTime := 6.05,
    elapsedTime := 6.05, dt := 0.1, scene := [8], glfwTime := 16.15, shouldClose := false }

/-- A state in mid-cycle: the cycle started at timer value 10, the previous frame saw the
elapsed time 1.9, and the timer now reads 12. -/
def midFrame : LoopState ℚ (List ℕ) :=
  { isPaused := false, startTime := 10, currTime := 11.9, prevTime := 1.9,
    elapsedTime := 1.9, dt := 0.1, scene := [2], glfwTime := 12, shouldClose := false }


section TimelineLemmas

variable {α : Type} [LinearOrderedField α]

theorem ite_log (c : Prop) [Decidable c] (l : List ℕ) (k : ℕ) :
    (if c then l ++ [k] else l) = l ++ (if c then [k] else []) := by
  split_ifs <;> simp

/-- The blocks that run, one test after the other. -/
theorem activePhases_flat (e : α) :
    activePhases e =
      (if e ≤ 0.8 ∧ e ≥ 0 then [1] else []) ++ (if e ≤ 1.55 ∧ e ≥ 0.8 then [2] else []) ++
      (if e ≤ 2.3 ∧ e ≥ 1.55 then [3] else []) ++ (if e ≤ 3.05 ∧ e ≥ 2.3 then [4] else []) ++
      (if e ≤ 3.85 ∧ e ≥ 3.05 then [5] else []) ++ (if e ≤ 4.6 ∧ e ≥ 3.85 then [6] else []) ++
      (if e ≤ 5.35 ∧ e ≥ 4.6 then [7] else []) ++ (if e ≤ 6.1 ∧ e ≥ 5.35 then [8] else []) := by
  simp only [activePhases, runPhases, ite_log, List.nil_append]
  norm_num

theorem block_below (e t1 t2 : α) (k : ℕ) (h : e < t1) :
    (if e ≤ t2 ∧ e ≥ t1 then [k] else []) = [] :=
  if_neg (fun c => absurd c.2 (not_le.mpr h))

theorem block_above (e t1 t2 : α) (k : ℕ) (h : t2 < e) :
    (if e ≤ t2 ∧ e ≥ t1 then [k] else []) = [] :=
  if_neg (fun c => absurd c.1 (not_le.mpr h))

theorem block_in (e t1 t2 : α) (k : ℕ) (h1 : t1 ≤ e) (h2 : e ≤ t2) :
    (if e ≤ t2 ∧ e ≥ t1 then [k] else []) = [k] :=
  if_pos ⟨h2, h1⟩

theorem activePhases_before (e : α) (h : e < 0) : activePhases e = [] := by
  rw [activePhases_flat, block_below e 0 0.8 1 (by linarith),
    block_below e 0.8 1.55 2 (by linarith),
    block_below e 1.55 2.3 3 (by linarith),
    block_below e 2.3 3.05 4 (by linarith),
    block_below e 3.05 3.85 5 (by linarith),
    block_below e 3.85 4.6 6 (by linarith),
    block_below e 4.6 5.35 7 (by linarith),
    block_below e 5.35 6.1 8 (by linarith)]
  rfl

theorem activePhases_after (e : α) (h : 6.1 < e) : activePhases e = [] := by
  rw [activePhases_flat, block_above e 0 0.8 1 (by linarith),
    block_above e 0.8 1.55 2 (by linarith),
    block_above e 1.55 2.3 3 (by linarith),
    block_above e 2.3 3.05 4 (by linarith),
    block_above e 3.05 3.85 5 (by linarith),
    block_above e 3.85 4.6 6 (by linarith),
    block_above e 4.6 5.35 7 (by linarith),
    block_above e 5.35 6.1 8 (by linarith)]
  rfl

theorem activePhases_inside1 (e : α) (h1 : 0 ≤ e) (h2 : e < 0.8) :
    activePhases e = [1] := by
  rw [activePhases_flat, block_in e 0 0.8 1 (by linarith) (by linarith),
    block_below e 0.8 1.55 2 (by linarith),
    block_below e 1.55 2.3 3 (by linarith),
    block_below e 2.3 3.05 4 (by linarith),
    block_below e 3.05 3.85 5 (by linarith),
    block_below e 3.85 4.6 6 (by linarith),
    block_below e 4.6 5.35 7 (by linarith),
    block_below e 5.35 6.1 8 (by linarith)]
  rfl

theorem activePhases_inside2 (e : α) (h1 : 0.8 < e) (h2 : e < 1.55) :
    activePhases e = [2] := by
  rw [activePhases_flat, block_above e 0 0.8 1 (by linarith),
    block_in e 0.8 1.55 2 (by linarith) (by linarith),
    block_below e 1.55 2.3 3 (by linarith),
    block_below e 2.3 3.05 4 (by linarith),
    block_below e 3.05 3.85 5 (by linarith),
    block_below e 3.85 4.6 6 (by linarith),
    block_below e 4.6 5.35 7 (by linarith),
    block_below e 5.35 6.1 8 (by linarith)]
  rfl

theorem activePhases_inside3 (e : α) (h1 : 1.55 < e) (h2 : e < 2.3) :
    activePhases e = [3] := by
  rw [activePhases_flat, block_above e 0 0.8 1 (by linarith),
    block_above e 0.8 1.55 2 (by linarith),
    block_in e 1.55 2.3 3 (by linarith) (by linarith),
    block_below e 2.3 3.05 4 (by linarith),
    block_below e 3.05 3.85 5 (by linarith),
    block_below e 3.85 4.6 6 (by linarith),
    block_below e 4.6 5.35 7 (by linarith),
    block_below e 5.35 6.1 8 (by linarith)]
  rfl

theorem activePhases_inside4 (e : α) (h1 : 2.3 < e) (h2 : e < 3.05) :
    activePhases e = [4] := by
  rw [activePhases_flat, block_above e 0 0.8 1 (by linarith),
    block_above e 0.8 1.55 2 (by linarith),
    block_above e 1.55 2.3 3 (by linarith),
    block_in e 2.3 3.05 4 (by linarith) (by linarith),
    block_below e 3.05 3.85 5 (by linarith),
    block_below e 3.85 4.6 6 (by linarith),
    block_below e 4.6 5.35 7 (by linarith),
    block_below e 5.35 6.1 8 (by linarith)]
  rfl

theorem activePhases_inside5 (e : α) (h1 : 3.05 < e) (h2 : e < 3.85) :
    activePhases e = [5] := by
  rw [activePhases_flat, block_above e 0 0.8 1 (by linarith),
    block_above e 0.8 1.55 2 (by linarith),
    block_above e 1.55 2.3 3 (by linarith),
    block_above e 2.3 3.05 4 (by linarith),
    block_in e 3.05 3.85 5 (by linarith) (by linarith),
    block_below e 3.85 4.6 6 (by linarith),
    block_below e 4.6 5.35 7 (by linarith),
    block_below e 5.35 6.1 8 (by linarith)]
  rfl

theorem activePhases_inside6 (e : α) (h1 : 3.85 < e) (h2 : e < 4.6) :
    activePhases e = [6] := by
  rw [activePhases_flat, block_above e 0 0.8 1 (by linarith),
    block_above e 0.8 1.55 2 (by linarith),
    block_above e 1.55 2.3 3 (by linarith),
    block_above e 2.3 3.05 4 (by linarith),
    block_above e 3.05 3.85 5 (by linarith),
    block_in e 3.85 4.6 6 (by linarith) (by linarith),
    block_below e 4.6 5.35 7 (by linarith),
    block_below e 5.35 6.1 8 (by linarith)]
  rfl

theorem activePhases_inside7 (e : α) (h1 : 4.6 < e) (h2 : e < 5.35) :
    activePhases e = [7] := by
  rw [activePhases_flat, block_above e 0 0.8 1 (by linarith),
    block_above e 0.8 1.55 2 (by linarith),
    block_above e 1.55 2.3 3 (by linarith),
    block_above e 2.3 3.05 4 (by linarith),
    block_above e 3.05 3.85 5 (by linarith),
    block_above e 3.85 4.6 6 (by linarith),
    block_in e 4.6 5.35 7 (by linarith) (by linarith),
    block_below e 5.35 6.1 8 (by linarith)]
  rfl

theorem activePhases_inside8 (e : α) (h1 : 5.35 < e) (h2 : e ≤ 6.1) :
    activePhases e = [8] := by
  rw [activePhases_flat, block_above e 0 0.8 1 (by linarith),
    block_above e 0.8 1.55 2 (by linarith),
    block_above e 1.55 2.3 3 (by linarith),
    block_above e 2.3 3.05 4 (by linarith),
    block_above e 3.05 3.85 5 (by linarith),
    block_above e 3.85 4.6 6 (by linarith),
    block_above e 4.6 5.35 7 (by linarith),
    block_in e 5.35 6.1 8 (by linarith) (by linarith)]
  rfl

theorem activePhases_boundary1 : activePhases (0.8 : α) = [1, 2] := by
  rw [activePhases_flat]
  norm_num

theorem activePhases_boundary2 : activePhases (1.55 : α) = [2, 3] := by
  rw [activePhases_flat]
  norm_num

theorem activePhases_boundary3 : activePhases (2.3 : α) = [3, 4] := by
  rw [activePhases_flat]
  norm_num

theorem activePhases_boundary4 : activePhases (3.05 : α) = [4, 5] := by
  rw [activePhases_flat]
  norm_num

theorem activePhases_boundary5 : activePhases (3.85 : α) = [5, 6] := by
  rw [activePhases_flat]
  norm_num

theorem activePhases_boundary6 : activePhases (4.6 : α) = [6, 7] := by
  rw [activePhases_flat]
  norm_num

theorem activePhases_boundary7 : activePhases (5.35 : α) = [7, 8] := by
  rw [activePhases_flat]
  norm_num

/-- The blocks that run, by the position of the elapsed time on the timeline. -/
theorem activePhases_cases (e : α) :
    activePhases e =
      if e < 0 then [] else if e < 0.8 then [1] else if e = 0.8 then [1, 2]
      else if e < 1.55 then [2] else if e = 1.55 then [2, 3]
      else if e < 2.3 then [3] else if e = 2.3 then [3, 4]
      else if e < 3.05 then [4] else if e = 3.05 then [4, 5]
      else if e < 3.85 then [5] else if e = 3.85 then [5, 6]
      else if e < 4.6 then [6] else if e = 4.6 then [6, 7]
      else if e < 5.35 then [7] else if e = 5.35 then [7, 8]
      else if e ≤ 6.1 then [8] else [] := by
  by_cases h0 : e < 0
  · rw [if_pos h0, activePhases_before e h0]
  rw [if_neg h0]
  have g0 : 0 ≤ e := not_lt.mp h0
  by_cases l1 : e < 0.8
  · rw [if_pos l1, activePhases_inside1 e g0 l1]
  rw [if_neg l1]
  by_cases e1 : e = 0.8
  · rw [if_pos e1, e1, activePhases_boundary1]
  rw [if_neg e1]
  have g1 : 0.8 < e := lt_of_le_of_ne (not_lt.mp l1) (Ne.symm e1)
  by_cases l2 : e < 1.55
  · rw [if_pos l2, activePhases_inside2 e g1 l2]
  rw [if_neg l2]
  by_cases e2 : e = 1.55
  · rw [if_pos e2, e2, activePhases_boundary2]
  rw [if_neg e2]
  have g2 : 1.55 < e := lt_of_le_of_ne (not_lt.mp l2) (Ne.symm e2)
  by_cases l3 : e < 2.3
  · rw [if_pos l3, activePhases_inside3 e g2 l3]
  rw [if_neg l3]
  by_cases e3 : e = 2.3
  · rw [if_pos e3, e3, activePhases_boundary3]
  rw [if_neg e3]
  have g3 : 2.3 < e := lt_of_le_of_ne (not_lt.mp l3) (Ne.symm e3)
  by_cases l4 : e < 3.05
  · rw [if_pos l4, activePhases_inside4 e g3 l4]
  rw [if_neg l4]
  by_cases e4 : e = 3.05
  · rw [if_pos e4, e4, activePhases_boundary4]
  rw [if_neg e4]
  have g4 : 3.05 < e := lt_of_le_of_ne (not_lt.mp l4) (Ne.symm e4)
  by_cases l5 : e < 3.85
  · rw [if_pos l5, activePhases_inside5 e g4 l5]
  rw [if_neg l5]
  by_cases e5 : e = 3.85
  · rw [if_pos e5, e5, activePhases_boundary5]
  rw [if_neg e5]
  have g5 : 3.85 < e := lt_of_le_of_ne (not_lt.mp l5) (Ne.symm e5)
  by_cases l6 : e < 4.6
  · rw [if_pos l6, activePhases_inside6 e g5 l6]
  rw [if_neg l6]
  by_cases e6 : e = 4.6
  · rw [if_pos e6, e6, activePhases_boundary6]
  rw [if_neg e6]
  have g6 : 4.6 < e := lt_of_le_of_ne (not_lt.mp l6) (Ne.symm e6)
  by_cases l7 : e < 5.35
  · rw [if_pos l7, activePhases_inside7 e g6 l7]
  rw [if_neg l7]
  by_cases e7 : e = 5.35
  · rw [if_pos e7, e7, activePhases_boundary7]
  rw [if_neg e7]
  have g7 : 5.35 < e := lt_of_le_of_ne (not_lt.mp l7) (Ne.symm e7)
  by_cases l8 : e ≤ 6.1
  · rw [if_pos l8, activePhases_inside8 e g7 l8]
  rw [if_neg l8, activePhases_after e (not_le.mp l8)]

theorem ite_length_le_one (c : Prop) [Decidable c] (a b : List ℕ) (ha : a.length ≤ 1)
    (hb : b.length ≤ 1) : (if c then a else b).length ≤ 1 := by
  split_ifs <;> assumption

theorem one_le_ite_length (c : Prop) [Decidable c] (a b : List ℕ) (ha : 1 ≤ a.length)
    (hb : 1 ≤ b.length) : 1 ≤ (if c then a else b).length := by
  split_ifs <;> assumption

end TimelineLemmas
section TimelineTheorems

variable {α : Type} [LinearOrderedField α] {σ : Type}

/-- C3: whatever the elapsed time, the scene and the phase bodies, the eight pairs `(t1, t2)` a
playing frame computes are (0, 0.8), (0.8, 1.55), (1.55, 2.3), (2.3, 3.05), (3.05, 3.85),
(3.85, 4.6), (4.6, 5.35), (5.35, 6.1); their lengths are the durations 0.8, 0.75, 0.75, 0.75,
0.8, 0.75, 0.75, 0.75, and each pair starts where the previous one ends. -/
theorem runPhases_bounds (phase : ℕ → α → α → α → σ → σ) (elapsedTime : α) (s : σ) :
    (runPhases phase elapsedTime s).bounds
      = [(0, 0.8), (0.8, 1.55), (1.55, 2.3), (2.3, 3.05), (3.05, 3.85), (3.85, 4.6),
         (4.6, 5.35), (5.35, 6.1)] ∧
    phaseDurations (runPhases phase elapsedTime s).bounds
      = [0.8, 0.75, 0.75, 0.75, 0.8, 0.75, 0.75, 0.75] ∧
    ((runPhases phase elapsedTime s).bounds.map Prod.fst).tail
      = ((runPhases phase elapsedTime s).bounds.map Prod.snd).dropLast := by
  refine ⟨?_, ?_, ?_⟩ <;> norm_num [runPhases, phaseDurations]

/-- C7, as stated, fails: the sum of the eight phase durations is not 5.9 to one decimal; it
is 0.2 above. -/
theorem cycleDuration_not_5_9 :
    ¬ (|(cycleDuration : ℚ) - 5.9| ≤ 0.05) ∧ (cycleDuration : ℚ) - 5.9 = 0.2 := by
  norm_num [cycleDuration, phaseDurations, phaseBounds, runPhases, abs_le]

/-- C7, amended: the sum of the eight phase durations is 6.1, and so is the value of `t2` after
the last phase block, which the reset test compares the elapsed time with. -/
theorem cycleDuration_eq (phase : ℕ → α → α → α → σ → σ) (elapsedTime : α) (s : σ) :
    (cycleDuration : α) = 6.1 ∧ (finalT2 : α) = 6.1 ∧
    (runPhases phase elapsedTime s).t2 = 6.1 ∧
    (phaseDurations (runPhases phase elapsedTime s).bounds).sum = 6.1 := by
  refine ⟨?_, ?_, ?_, ?_⟩ <;>
    norm_num [cycleDuration, finalT2, phaseDurations, phaseBounds, runPhases]

/-- C8: the blocks that run in a playing frame with elapsed time `e`.  At each of the seven
interior boundaries exactly the two adjacent blocks run, in order; at any other `e` at most
one block runs; for `0 ≤ e ≤ 6.1` at least one block runs; for `e > 6.1` none does. -/
theorem activePhases_spec (e : α) :
    (e = 0.8 → activePhases e = [1, 2]) ∧ (e = 1.55 → activePhases e = [2, 3]) ∧
    (e = 2.3 → activePhases e = [3, 4]) ∧ (e = 3.05 → activePhases e = [4, 5]) ∧
    (e = 3.85 → activePhases e = [5, 6]) ∧ (e = 4.6 → activePhases e = [6, 7]) ∧
    (e = 5.35 → activePhases e = [7, 8]) ∧
    (e ∉ ([0.8, 1.55, 2.3, 3.05, 3.85, 4.6, 5.35] : List α) → (activePhases e).length ≤ 1) ∧
    (0 ≤ e → e ≤ 6.1 → 1 ≤ (activePhases e).length) ∧
    (6.1 < e → activePhases e = []) := by
  refine ⟨?_, ?_, ?_, ?_, ?_, ?_, ?_, ?_, ?_, ?_⟩
  · rintro rfl; exact activePhases_boundary1
  · rintro rfl; exact activePhases_boundary2
  · rintro rfl; exact activePhases_boundary3
  · rintro rfl; exact activePhases_boundary4
  · rintro rfl; exact activePhases_boundary5
  · rintro rfl; exact activePhases_boundary6
  · rintro rfl; exact activePhases_boundary7
  · intro h
    simp only [List.mem_cons, List.mem_singleton, List.not_mem_nil, or_false, not_or] at h
    obtain ⟨h1, h2, h3, h4, h5, h6, h7⟩ := h
    rw [activePhases_cases]
    simp only [if_neg h1, if_neg h2, if_neg h3, if_neg h4, if_neg h5, if_neg h6, if_neg h7]
    repeat' apply ite_length_le_one
    all_goals first | exact Nat.zero_le _ | exact le_refl _
  · intro h1 h2
    rw [activePhases_cases, if_neg (not_lt.mpr h1)]
    simp only [if_pos h2]
    repeat' apply one_le_ite_length
    all_goals first | exact le_refl _ | exact Nat.le_succ _
  · intro h
    exact activePhases_after e h

/-- The blocks that run at the elapsed times 0.8, 1 and 6.15, through `activePhases_spec`. -/
theorem activePhases_spec_witness :
    activePhases (0.8 : ℚ) = [1, 2] ∧ (activePhases (1 : ℚ)).length ≤ 1 ∧
    1 ≤ (activePhases (1 : ℚ)).length ∧ activePhases (6.15 : ℚ) = [] :=
  ⟨(activePhases_spec (0.8 : ℚ)).1 rfl,
   (activePhases_spec (1 : ℚ)).2.2.2.2.2.2.2.1 (by norm_num),
   (activePhases_spec (1 : ℚ)).2.2.2.2.2.2.2.2.1 (by norm_num) (by norm_num),
   (activePhases_spec (6.15 : ℚ)).2.2.2.2.2.2.2.2.2 (by norm_num)⟩

end TimelineTheorems
section LoopTheorems

variable {α : Type} [LinearOrderedField α] {σ : Type}

theorem runPhases_t2 (phase : ℕ → α → α → α → σ → σ) (elapsedTime : α) (s : σ) :
    (runPhases phase elapsedTime s).t2 = 6.1 := by
  norm_num [runPhases]

theorem runPhases_zero (phase : ℕ → α → α → α → σ → σ) (s : σ) :
    (runPhases phase 0 s).scene = phase 1 0 0.8 0 s := by
  norm_num [runPhases]

theorem playingFrame_startTime (phase : ℕ → α → α → α → σ → σ) (st : LoopState α σ) :
    (playingFrame phase st).startTime = if st.currTime < 0 then st.glfwTime else st.startTime :=
  rfl

theorem playingFrame_elapsedTime (phase : ℕ → α → α → α → σ → σ) (st : LoopState α σ) :
    (playingFrame phase st).elapsedTime
      = st.glfwTime - if st.currTime < 0 then st.glfwTime else st.startTime :=
  rfl

theorem playingFrame_currTime (phase : ℕ → α → α → α → σ → σ) (st : LoopState α σ) :
    (playingFrame phase st).currTime
      = if (playingFrame phase st).elapsedTime > 6.1 then -1 else st.glfwTime := by
  simp only [playingFrame, runPhases_t2]

theorem playingFrame_scene (phase : ℕ → α → α → α → σ → σ) (st : LoopState α σ) :
    (playingFrame phase st).scene
      = (runPhases phase (playingFrame phase st).elapsedTime st.scene).scene :=
  rfl

theorem playingFrame_glfwTime (phase : ℕ → α → α → α → σ → σ) (st : LoopState α σ) :
    (playingFrame phase st).glfwTime = st.glfwTime :=
  rfl

/-- After a playing frame the clock fields add up to the timestamp the frame read. -/
theorem playingFrame_elapsed_add_start (phase : ℕ → α → α → α → σ → σ) (st : LoopState α σ) :
    (playingFrame phase st).elapsedTime + (playingFrame phase st).startTime = st.glfwTime := by
  rw [playingFrame_elapsedTime, playingFrame_startTime]
  ring

/-- A paused frame, however long after the previous frame, leaves everything but the timer as
it is and sets the timer to `elapsedTime + startTime`. -/
theorem pausedFrame_elapse (d : α) (st : LoopState α σ) :
    pausedFrame (elapse d st) = { st with glfwTime := st.elapsedTime + st.startTime } :=
  rfl

theorem pausedFrames_eq (delays : List α) (st : LoopState α σ) (h : delays ≠ []) :
    pausedFrames delays st = { st with glfwTime := st.elapsedTime + st.startTime } := by
  induction delays generalizing st with
  | nil => exact absurd rfl h
  | cons d ds ih =>
    by_cases hds : ds = []
    · subst hds
      rfl
    · have step : pausedFrames (d :: ds) st = pausedFrames ds (pausedFrame (elapse d st)) := rfl
      rw [step, ih _ hds, pausedFrame_elapse]

/-- C4: when a playing frame computes an elapsed time above 6.1, it leaves `currTime = -1`;
the next playing frame, reading the timestamp `ts`, sets `startTime` to `ts` and computes the
elapsed time 0, at which block 1, and only block 1, runs. -/
theorem cycle_restart (phase : ℕ → α → α → α → σ → σ) (st : LoopState α σ) (ts : α)
    (h : 6.1 < (playingFrame phase st).elapsedTime) :
    (playingFrame phase st).currTime = -1 ∧
    (playingFrame phase { playingFrame phase st with glfwTime := ts }).startTime = ts ∧
    (playingFrame phase { playingFrame phase st with glfwTime := ts }).elapsedTime = 0 ∧
    activePhases (playingFrame phase { playingFrame phase st with glfwTime := ts }).elapsedTime
      = [1] ∧
    (playingFrame phase { playingFrame phase st with glfwTime := ts }).scene
      = phase 1 0 0.8 0 (playingFrame phase st).scene := by
  have hc : (playingFrame phase st).currTime = -1 := by
    rw [playingFrame_currTime, if_pos h]
  have hneg : ({ playingFrame phase st with glfwTime := ts } : LoopState α σ).currTime < 0 := by
    show (playingFrame phase st).currTime < 0
    rw [hc]
    exact neg_one_lt_zero
  have hs : (playingFrame phase { playingFrame phase st with glfwTime := ts }).startTime
      = ts := by
    rw [playingFrame_startTime, if_pos hneg]
  have he : (playingFrame phase { playingFrame phase st with glfwTime := ts }).elapsedTime
      = 0 := by
    rw [playingFrame_elapsedTime, if_pos hneg]
    exact sub_self _
  refine ⟨hc, hs, he, ?_, ?_⟩
  · rw [he]
    exact activePhases_inside1 0 (le_refl 0) (by norm_num)
  · rw [playingFrame_scene, he, runPhases_zero]

/-- The restart of the cycle from a frame that sees the elapsed time 6.15, through
`cycle_restart`. -/
theorem cycle_restart_witness :
    (playingFrame logPhase lateFrame).elapsedTime = 6.15 ∧
    (playingFrame logPhase lateFrame).currTime = -1 ∧
    (playingFrame logPhase { playingFrame logPhase lateFrame with glfwTime := 16.25 }).startTime
      = 16.25 ∧
    (playingFrame logPhase
      { playingFrame logPhase lateFrame with glfwTime := 16.25 }).elapsedTime = 0 ∧
    activePhases (playingFrame logPhase
      { playingFrame logPhase lateFrame with glfwTime := 16.25 }).elapsedTime = [1] ∧
    (playingFrame logPhase { playingFrame logPhase lateFrame with glfwTime := 16.25 }).scene
      = logPhase 1 0 0.8 0 (playingFrame logPhase lateFrame).scene :=
  ⟨by norm_num [playingFrame, lateFrame],
   cycle_restart logPhase lateFrame 16.25 (by norm_num [playingFrame, lateFrame])⟩

/-- C5: take the state `st` a playing frame leaves when it reads a timestamp `≥ 0` (the GLFW
timer counts up from zero) and computes an elapsed time `e ≤ 6.1`, so that it does not reset
the cycle.  After any non-empty run of paused frames, whatever time passes before each of
them, the elapsed time is still `e`, `startTime` is unchanged and the timer stands at
`e + startTime`; a playing frame that reads the timer `d` later computes the elapsed time
`e + d`. -/
theorem pause_resume (phase : ℕ → α → α → α → σ → σ) (st0 : LoopState α σ)
    (delays : List α) (d : α) (hts : 0 ≤ st0.glfwTime)
    (hno : (playingFrame phase st0).elapsedTime ≤ 6.1) (hne : delays ≠ []) :
    (pausedFrames delays (playingFrame phase st0)).elapsedTime
      = (playingFrame phase st0).elapsedTime ∧
    (pausedFrames delays (playingFrame phase st0)).startTime
      = (playingFrame phase st0).startTime ∧
    (pausedFrames delays (playingFrame phase st0)).glfwTime
      = (playingFrame phase st0).elapsedTime + (playingFrame phase st0).startTime ∧
    (playingFrame phase (elapse d (pausedFrames delays (playingFrame phase st0)))).elapsedTime
      = (playingFrame phase st0).elapsedTime + d := by
  rw [pausedFrames_eq delays _ hne]
  refine ⟨rfl, rfl, rfl, ?_⟩
  have hc : (playingFrame phase st0).currTime = st0.glfwTime := by
    rw [playingFrame_currTime, if_neg (not_lt.mpr hno)]
  have hnn : ¬ (playingFrame phase st0).currTime < 0 := by
    rw [hc]
    exact not_lt.mpr hts
  rw [playingFrame_elapsedTime]
  show (playingFrame phase st0).elapsedTime + (playingFrame phase st0).startTime + d
      - (if (playingFrame phase st0).currTime < 0 then _ else (playingFrame phase st0).startTime)
      = _
  rw [if_neg hnn]
  ring

/-- A pause at the elapsed time 2 that lasts 3 time units over three paused frames, through
`pause_resume`: the frame after it sees 2.01, not 5. -/
theorem pause_resume_witness :
    (playingFrame logPhase midFrame).elapsedTime = 2 ∧
    (pausedFrames [1, 1.5, 0.5] (playingFrame logPhase midFrame)).elapsedTime
      = (playingFrame logPhase midFrame).elapsedTime ∧
    (pausedFrames [1, 1.5, 0.5] (playingFrame logPhase midFrame)).startTime
      = (playingFrame logPhase midFrame).startTime ∧
    (pausedFrames [1, 1.5, 0.5] (playingFrame logPhase midFrame)).glfwTime
      = (playingFrame logPhase midFrame).elapsedTime
        + (playingFrame logPhase midFrame).startTime ∧
    (playingFrame logPhase
        (elapse 0.01 (pausedFrames [1, 1.5, 0.5] (playingFrame logPhase midFrame)))).elapsedTime
      = (playingFrame logPhase midFrame).elapsedTime + 0.01 :=
  ⟨by norm_num [playingFrame, midFrame],
   pause_resume logPhase midFrame [1, 1.5, 0.5] 0.01 (by norm_num [midFrame])
    (by norm_num [playingFrame, midFrame]) (by simp)⟩

end LoopTheorems
section EasingTheorems

end EasingTheorems
section TransformTheorems

open Real

theorem radians_zero : glm.radians 0 = 0 := by
  simp [glm.radians]

theorem radians_ninety : glm.radians 90 = π / 2 := by
  unfold glm.radians
  ring

theorem radians_neg_ninety : glm.radians (-90) = -(π / 2) := by
  unfold glm.radians
  ring

theorem radians_one_eighty : glm.radians 180 = π := by
  unfold glm.radians
  ring

theorem updateTransform_transform (b : Box) :
    b.updateTransform.transform
      = glm.translate 1 b.x b.y 0 * glm.rotate 1 (glm.radians b.angle) * glm.scale 1 b.scale := by
  simp only [Box.updateTransform, Box.resetTransform, Box.setTransform, glm.translate,
    glm.rotate, glm.scale, one_mul]

theorem updateOffsetRotation_transform (b : Box) :
    b.updateOffsetRotation.transform
      = glm.rotate 1 (glm.radians b.angle) * glm.translate 1 b.x b.y 0 * glm.scale 1 b.scale := by
  simp only [Box.updateOffsetRotation, Box.resetTransform, Box.setTransform, glm.translate,
    glm.rotate, glm.scale, one_mul]

theorem updateTransform_centre (b : Box) : b.updateTransform.centre = (b.x, b.y) := by
  simp [Box.centre, updateTransform_transform, glm.translate, glm.rotate, glm.scale,
    Matrix.mulVec, Matrix.dotProduct, Fin.sum_univ_four, Matrix.mul_apply]

theorem updateOffsetRotation_centre (b : Box) :
    b.updateOffsetRotation.centre
      = (cos (glm.radians b.angle) * b.x - sin (glm.radians b.angle) * b.y,
         sin (glm.radians b.angle) * b.x + cos (glm.radians b.angle) * b.y) := by
  simp [Box.centre, updateOffsetRotation_transform, glm.translate, glm.rotate, glm.scale,
    Matrix.mulVec, Matrix.dotProduct, Fin.sum_univ_four, Matrix.mul_apply]
  ring

theorem easeInOutQuart_zero : easeInOutQuart (0 : ℝ) = 0 := by
  norm_num [easeInOutQuart]

theorem easeInOutQuart_one : easeInOutQuart (1 : ℝ) = 1 := by
  norm_num [easeInOutQuart]

theorem easeOutBounce_zero : easeOutBounce (0 : ℝ) = 0 := by
  norm_num [easeOutBounce]

theorem easeOutBounce_one : easeOutBounce (1 : ℝ) = 0.999925 := by
  norm_num [easeOutBounce]

/-- C6: for every box, `updateTransform` builds translate * rotateZ * scale and sends the local
origin to the position `(x, y)`; `updateOffsetRotation` builds rotateZ * translate * scale and
sends the local origin to `(x, y)` turned about the world origin by the angle.  For a box at
position `(1, 0)` with angle 90 degrees and scale 1 the two images are `(1, 0)` and `(0, 1)`,
which differ. -/
theorem transform_orders (b : Box) (w h : ℝ) :
    b.updateTransform.transform
      = translationMatrix b.x b.y * rotationZMatrix b.angle * scalingMatrix b.scale ∧
    b.updateTransform.centre = (b.x, b.y) ∧
    b.updateOffsetRotation.transform
      = rotationZMatrix b.angle * translationMatrix b.x b.y * scalingMatrix b.scale ∧
    b.updateOffsetRotation.centre = rotateAboutOrigin b.angle b.x b.y ∧
    ((((Box.new w h).setPosition 1 0).setAngle 90).setScale 1).updateTransform.centre
      = (1, 0) ∧
    ((((Box.new w h).setPosition 1 0).setAngle 90).setScale 1).updateOffsetRotation.centre
      = (0, 1) ∧
    ((((Box.new w h).setPosition 1 0).setAngle 90).setScale 1).updateTransform.centre
      ≠ ((((Box.new w h).setPosition 1 0).setAngle 90).setScale 1).updateOffsetRotation.centre
    := by
  have h1 : ((((Box.new w h).setPosition 1 0).setAngle 90).setScale 1).updateTransform.centre
      = (1, 0) := by
    rw [updateTransform_centre]
    rfl
  have h2 :
      ((((Box.new w h).setPosition 1 0).setAngle 90).setScale 1).updateOffsetRotation.centre
      = (0, 1) := by
    rw [updateOffsetRotation_centre]
    simp [Box.setScale, Box.setAngle, Box.setPosition, radians_ninety]
  refine ⟨?_, updateTransform_centre b, ?_, updateOffsetRotation_centre b, h1, h2, ?_⟩
  · rw [updateTransform_transform]
    simp only [glm.translate, glm.rotate, glm.scale, glm.radians, one_mul, translationMatrix,
      rotationZMatrix, scalingMatrix]
  · rw [updateOffsetRotation_transform]
    simp only [glm.translate, glm.rotate, glm.scale, glm.radians, one_mul, translationMatrix,
      rotationZMatrix, scalingMatrix]
  · rw [h1, h2]
    simp

/-- C9, evaluated on the code: in the bounce phases 1 and 5 every box has scale 1 at the start
of the phase, and at its own bounce completion (elapsed time in the phase = 0.8 plus the box's
offset) its scale is 0.5000375, not 0.5. -/
theorem bounce_scale (p : ℝ) (s : Scene) :
    (∀ i, ((phase1 p 0 0.8 0 s).box i).scale = 1) ∧
    (∀ i, ((phase5 p 3.05 3.85 3.05 s).box i).scale = 1) ∧
    (phase1 p 0 0.8 0.725 s).box1.scale = 0.5000375 ∧
    (phase1 p 0 0.8 0.8 s).box2.scale = 0.5000375 ∧
    (phase1 p 0 0.8 0.75 s).box3.scale = 0.5000375 ∧
    (phase1 p 0 0.8 0.775 s).box4.scale = 0.5000375 ∧
    (phase5 p 3.05 3.85 3.825 s).box1.scale = 0.5000375 ∧
    (phase5 p 3.05 3.85 3.8 s).box2.scale = 0.5000375 ∧
    (phase5 p 3.05 3.85 3.85 s).box3.scale = 0.5000375 ∧
    (phase5 p 3.05 3.85 3.775 s).box4.scale = 0.5000375 ∧
    (0.5000375 : ℝ) ≠ 0.5 := by
  refine ⟨?_, ?_, ?_, ?_, ?_, ?_, ?_, ?_, ?_, ?_, by norm_num⟩
  · intro i
    fin_cases i <;>
      norm_num [phase1, Scene.box, Box.updateTransform, Box.setTransform, Box.resetTransform,
        Box.setScale, Box.setPosition, getInterpolatedVal, easeOutBounce_zero]
  · intro i
    fin_cases i <;>
      norm_num [phase5, Scene.box, Box.updateTransform, Box.setTransform, Box.resetTransform,
        Box.setScale, Box.setPosition, getInterpolatedVal, easeOutBounce_zero]
  all_goals
    simp only [phase1, phase5, Box.updateTransform, Box.setTransform, Box.resetTransform,
      Box.setScale, Box.setPosition, getInterpolatedVal]
    norm_num [easeOutBounce_one]

end TransformTheorems
section ContinuityTheorems

open Real

theorem interp_quart_start (d t1 a b : ℝ) :
    getInterpolatedVal d (t1 - t1) a b easeInOutQuart = a := by
  simp [getInterpolatedVal, easeInOutQuart_zero]

theorem interp_quart_end (t1 t2 a b : ℝ) (h : t1 ≠ t2) :
    getInterpolatedVal (t2 - t1) (t2 - t1) a b easeInOutQuart = b := by
  have hd : t2 - t1 ≠ 0 := sub_ne_zero.mpr (Ne.symm h)
  simp [getInterpolatedVal, div_self hd, easeInOutQuart_one]

theorem offset_centre (b : Box) (a : ℝ) :
    (b.setAngle a).updateOffsetRotation.centre
      = (cos (glm.radians a) * b.x - sin (glm.radians a) * b.y,
         sin (glm.radians a) * b.x + cos (glm.radians a) * b.y) := by
  rw [updateOffsetRotation_centre]
  rfl

theorem offset_centre_zero (b : Box) :
    (b.setAngle 0.0).updateOffsetRotation.centre = (b.x, b.y) := by
  rw [offset_centre]
  norm_num [radians_zero]

theorem offset_centre_neg_ninety (b : Box) :
    (b.setAngle (-90.0)).updateOffsetRotation.centre = (b.y, -b.x) := by
  rw [offset_centre]
  norm_num [radians_neg_ninety]

theorem offset_centre_ninety (b : Box) :
    (b.setAngle 90.0).updateOffsetRotation.centre = (-b.y, b.x) := by
  rw [offset_centre]
  norm_num [radians_ninety]

theorem offset_centre_one_eighty (b : Box) :
    (b.setAngle 180.0).updateOffsetRotation.centre = (-b.x, -b.y) := by
  rw [offset_centre]
  norm_num [radians_one_eighty]

/-- The centres phase 1 produces, at any time of the phase. -/
theorem phase1_centre (p t1 t2 e : ℝ) (s : Scene) (i : Fin 4) :
    ((phase1 p t1 t2 e s).box i).centre = ![(-p, p), (p, p), (p, -p), (-p, -p)] i := by
  fin_cases i <;> exact updateTransform_centre _

theorem phase1_x (p t1 t2 e : ℝ) (s : Scene) (i : Fin 4) :
    ((phase1 p t1 t2 e s).box i).x = ![-p, p, p, -p] i := by
  fin_cases i <;> rfl

theorem phase1_y (p t1 t2 e : ℝ) (s : Scene) (i : Fin 4) :
    ((phase1 p t1 t2 e s).box i).y = ![p, p, -p, -p] i := by
  fin_cases i <;> rfl

theorem phase3_centre (p t1 t2 e : ℝ) (s : Scene) (i : Fin 4) :
    ((phase3 p t1 t2 e s).box i).centre = ![(p, p), (p, -p), (-p, -p), (-p, p)] i := by
  fin_cases i <;> exact updateTransform_centre _

theorem phase5_centre (p t1 t2 e : ℝ) (s : Scene) (i : Fin 4) :
    ((phase5 p t1 t2 e s).box i).centre = ![(p, -p), (-p, -p), (-p, p), (p, p)] i := by
  fin_cases i <;> exact updateTransform_centre _

theorem phase5_x (p t1 t2 e : ℝ) (s : Scene) (i : Fin 4) :
    ((phase5 p t1 t2 e s).box i).x = ![p, -p, -p, p] i := by
  fin_cases i <;> rfl

theorem phase5_y (p t1 t2 e : ℝ) (s : Scene) (i : Fin 4) :
    ((phase5 p t1 t2 e s).box i).y = ![-p, -p, p, p] i := by
  fin_cases i <;> rfl

theorem phase7_centre (p t1 t2 e : ℝ) (s : Scene) (i : Fin 4) :
    ((phase7 p t1 t2 e s).box i).centre = ![(-p, -p), (-p, p), (p, p), (p, -p)] i := by
  fin_cases i <;> exact updateTransform_centre _

/-- Phase 2 at its start time leaves every centre at the position the box holds. -/
theorem phase2_centre_start (p t1 t2 : ℝ) (s : Scene) (i : Fin 4) :
    ((phase2 p t1 t2 t1 s).box i).centre = ((s.box i).x, (s.box i).y) := by
  fin_cases i <;>
  · show (Box.setAngle _ (getInterpolatedVal _ (t1 - t1) _ _ _)).updateOffsetRotation.centre = _
    rw [interp_quart_start]
    exact offset_centre_zero _

/-- Phase 2 at its end time has turned every position by -90 degrees. -/
theorem phase2_centre_end (p t1 t2 : ℝ) (h : t1 ≠ t2) (s : Scene) (i : Fin 4) :
    ((phase2 p t1 t2 t2 s).box i).centre = ((s.box i).y, -(s.box i).x) := by
  fin_cases i <;>
  · show (Box.setAngle _ (getInterpolatedVal _ (t2 - t1) _ _ _)).updateOffsetRotation.centre = _
    rw [interp_quart_end _ _ _ _ h]
    exact offset_centre_neg_ninety _

theorem phase6_centre_start (p t1 t2 : ℝ) (s : Scene) (i : Fin 4) :
    ((phase6 p t1 t2 t1 s).box i).centre = ((s.box i).x, (s.box i).y) := by
  fin_cases i <;>
  · show (Box.setAngle _ (getInterpolatedVal _ (t1 - t1) _ _ _)).updateOffsetRotation.centre = _
    rw [interp_quart_start]
    exact offset_centre_zero _

theorem phase6_centre_end (p t1 t2 : ℝ) (h : t1 ≠ t2) (s : Scene) (i : Fin 4) :
    ((phase6 p t1 t2 t2 s).box i).centre = ((s.box i).y, -(s.box i).x) := by
  fin_cases i <;>
  · show (Box.setAngle _ (getInterpolatedVal _ (t2 - t1) _ _ _)).updateOffsetRotation.centre = _
    rw [interp_quart_end _ _ _ _ h]
    exact offset_centre_neg_ninety _

/-- Phase 4 at its start time: the positions it sets, turned by 180 degrees. -/
theorem phase4_centre_start (p t1 t2 : ℝ) (s : Scene) (i : Fin 4) :
    ((phase4 p t1 t2 t1 s).box i).centre = ![(p, p), (p, -p), (-p, -p), (-p, p)] i := by
  fin_cases i <;>
  · show (Box.setAngle _ (getInterpolatedVal _ (t1 - t1) _ _ _)).updateOffsetRotation.centre = _
    rw [interp_quart_start, offset_centre_one_eighty]
    simp [Box.setPosition]

/-- Phase 4 at its end time: the positions it sets, turned by 90 degrees. -/
theorem phase4_centre_end (p t1 t2 : ℝ) (h : t1 ≠ t2) (s : Scene) (i : Fin 4) :
    ((phase4 p t1 t2 t2 s).box i).centre = ![(p, -p), (-p, -p), (-p, p), (p, p)] i := by
  fin_cases i <;>
  · show (Box.setAngle _ (getInterpolatedVal _ (t2 - t1) _ _ _)).updateOffsetRotation.centre = _
    rw [interp_quart_end _ _ _ _ h, offset_centre_ninety]
    simp [Box.setPosition]

theorem phase8_centre_start (p t1 t2 : ℝ) (s : Scene) (i : Fin 4) :
    ((phase8 p t1 t2 t1 s).box i).centre = ![(-p, -p), (-p, p), (p, p), (p, -p)] i := by
  fin_cases i <;>
  · show (Box.setAngle _ (getInterpolatedVal _ (t1 - t1) _ _ _)).updateOffsetRotation.centre = _
    rw [interp_quart_start, offset_centre_one_eighty]
    simp [Box.setPosition]

theorem phase8_centre_end (p t1 t2 : ℝ) (h : t1 ≠ t2) (s : Scene) (i : Fin 4) :
    ((phase8 p t1 t2 t2 s).box i).centre = ![(-p, p), (p, p), (p, -p), (-p, -p)] i := by
  fin_cases i <;>
  · show (Box.setAngle _ (getInterpolatedVal _ (t2 - t1) _ _ _)).updateOffsetRotation.centre = _
    rw [interp_quart_end _ _ _ _ h, offset_centre_ninety]
    simp [Box.setPosition]

/-- C10: the centre of every box is the same on both sides of each of the eight phase
boundaries, the wrap from phase 8 to phase 1 included, for every `posOffset` and every scene
the frames start from.  Phases 2 and 6 set no position: they turn the positions phase 1 and
phase 5 set, in a frame at any time `e`. -/
theorem centre_continuous (posOffset e : ℝ) (s : Scene) (i : Fin 4) :
    ((phase2 posOffset 0.8 1.55 0.8 (phase1 posOffset 0 0.8 0.8 s)).box i).centre
      = ((phase1 posOffset 0 0.8 0.8 s).box i).centre ∧
    ((phase3 posOffset 1.55 2.3 1.55
        (phase2 posOffset 0.8 1.55 1.55 (phase1 posOffset 0 0.8 e s))).box i).centre
      = ((phase2 posOffset 0.8 1.55 1.55 (phase1 posOffset 0 0.8 e s)).box i).centre ∧
    ((phase4 posOffset 2.3 3.05 2.3 (phase3 posOffset 1.55 2.3 2.3 s)).box i).centre
      = ((phase3 posOffset 1.55 2.3 2.3 s).box i).centre ∧
    ((phase5 posOffset 3.05 3.85 3.05 (phase4 posOffset 2.3 3.05 3.05 s)).box i).centre
      = ((phase4 posOffset 2.3 3.05 3.05 s).box i).centre ∧
    ((phase6 posOffset 3.85 4.6 3.85 (phase5 posOffset 3.05 3.85 3.85 s)).box i).centre
      = ((phase5 posOffset 3.05 3.85 3.85 s).box i).centre ∧
    ((phase7 posOffset 4.6 5.35 4.6
        (phase6 posOffset 3.85 4.6 4.6 (phase5 posOffset 3.05 3.85 e s))).box i).centre
      = ((phase6 posOffset 3.85 4.6 4.6 (phase5 posOffset 3.05 3.85 e s)).box i).centre ∧
    ((phase8 posOffset 5.35 6.1 5.35 (phase7 posOffset 4.6 5.35 5.35 s)).box i).centre
      = ((phase7 posOffset 4.6 5.35 5.35 s).box i).centre ∧
    ((phase1 posOffset 0 0.8 0 (phase8 posOffset 5.35 6.1 6.1 s)).box i).centre
      = ((phase8 posOffset 5.35 6.1 6.1 s).box i).centre := by
  refine ⟨?_, ?_, ?_, ?_, ?_, ?_, ?_, ?_⟩
  · rw [phase2_centre_start, phase1_centre, phase1_x, phase1_y]
    fin_cases i <;> rfl
  · rw [phase3_centre, phase2_centre_end _ _ _ (by norm_num), phase1_x, phase1_y]
    fin_cases i <;> simp
  · rw [phase4_centre_start, phase3_centre]
  · rw [phase5_centre, phase4_centre_end _ _ _ (by norm_num)]
  · rw [phase6_centre_start, phase5_centre, phase5_x, phase5_y]
    fin_cases i <;> rfl
  · rw [phase7_centre, phase6_centre_end _ _ _ (by norm_num), phase5_x, phase5_y]
    fin_cases i <;> simp
  · rw [phase8_centre_start, phase7_centre]
  · rw [phase1_centre, phase8_centre_end _ _ _ (by norm_num)]

end ContinuityTheorems
end Logo
